import Mathlib

/-!
Verification of digitalmarketplace-utils against its specification.

The development shallowly embeds the Python sources:
  * dmutils/forms/helpers.py : remove_csrf_token, govuk_option, govuk_options
  * dmutils/session.py       : init_app
  * dmutils/errors.py        : render_error_page, csrf_handler, redirect_to_login
    (this module itself is not among the provided sources, only its test
    suite is; its behaviour is therefore modelled from the specification,
    constrained by the tests in tests/test_errors.py)

Python dictionaries are modelled as insertion-ordered association lists; a
Python value appearing in such a dictionary is either a string-like atom or
a nested dictionary.  Fallible code (subscripting a dict, a failing service
lookup, a failing template render) is modelled with Except.
-/

namespace DMUtils

/-- A Python value stored in a dictionary: an atomic (string) value or a
nested dictionary (used for the `hint` sub-dictionary of govuk_option). -/
inductive Val where
  | str : String → Val
  | obj : List (String × Val) → Val

/-- A Python dict, as an insertion-ordered association list (a real dict
never has a duplicate key; entries are the items in insertion order). -/
abbrev Dict := List (String × Val)

/-- `k in d` : Python key membership test. -/
def containsKey : Dict → String → Bool
  | [], _ => false
  | (a, _) :: rest, k => if a = k then true else containsKey rest k

/-- `d.get(k)` (no default): the value bound to `k`, if any. -/
def lookup : Dict → String → Option Val
  | [], _ => none
  | (a, v) :: rest, k => if a = k then some v else lookup rest k

/-- `d[k]` : subscripting, raising KeyError (modelled as the offending key
in the error channel) when the key is absent. -/
def getItem (d : Dict) (k : String) : Except String Val :=
  match lookup d k with
  | some v => Except.ok v
  | none => Except.error k

/-- `d[k] = v` / one step of `d.update(...)` : replace the existing binding
of `k` in place, else append a new binding (Python dict semantics). -/
def dictSet (d : Dict) (k : String) (v : Val) : Dict :=
  if containsKey d k then
    d.map (fun p => if p.1 = k then (k, v) else p)
  else
    d ++ [(k, v)]

/-- Keys of a dict, in order. -/
def keys (d : Dict) : List String := d.map (·.1)

/-!  ## dmutils/forms/helpers.py -/

/-- A Python dict object with an identity: `oid` is the object's identity
(as returned by Python's `id`), `entries` its contents.  Used where the
specification distinguishes a fresh copy from the argument object. -/
structure PyDict where
  oid : Nat
  entries : Dict

/-- `remove_csrf_token(data)` from dmutils/forms/helpers.py:

    cleaned_data = \x7b**data\x7d        (a fresh shallow copy)
    if 'csrf_token' in data:
        del cleaned_data['csrf_token']
    return cleaned_data

`fresh` is the identity the allocator gives the copy; the caller knows it
differs from every live object's identity, in particular from `data.oid`. -/
def remove_csrf_token (fresh : Nat) (data : PyDict) : PyDict :=
  let cleaned_data : Dict :=
    if containsKey data.entries "csrf_token" then
      data.entries.filter (fun p => p.1 != "csrf_token")
    else
      data.entries
  ⟨fresh, cleaned_data⟩

/-- `govuk_option(option)` from dmutils/forms/helpers.py.  The argument is
`none` for Python `None`, `some d` for a dict `d`; `if option:` is the
Python truthiness test (None and the empty dict are falsy).  Inside the
truthy branch the source builds

    item = \x7b
        "value": option.get('value', option['label']),
        "text": option['label'],
    \x7d

where the default argument `option['label']` is evaluated eagerly, before
`get` can observe whether 'value' is present; then

    if "description" in option:
        item.update(\x7b"hint": \x7b"text": option["description"]\x7d\x7d)

A KeyError is modelled as `Except.error` carrying the missing key. -/
def govuk_option : Option Dict → Except String Dict
  | none => Except.ok []
  | some option =>
    if option.isEmpty then
      Except.ok []
    else
      match getItem option "label" with
      | Except.error k => Except.error k
      | Except.ok label =>
        let item : Dict :=
          [("value", (lookup option "value").getD label), ("text", label)]
        if containsKey option "description" then
          match getItem option "description" with
          | Except.error k => Except.error k
          | Except.ok d => Except.ok (dictSet item "hint" (Val.obj [("text", d)]))
        else
          Except.ok item

/-- `govuk_options(options)` from dmutils/forms/helpers.py:
`[govuk_option(option) for option in options]`; the elements are converted
left to right and a KeyError raised by any element propagates out of the
comprehension. -/
def govuk_options : List (Option Dict) → Except String (List Dict)
  | [] => Except.ok []
  | option :: rest =>
    match govuk_option option with
    | Except.error e => Except.error e
    | Except.ok r =>
      match govuk_options rest with
      | Except.error e => Except.error e
      | Except.ok rs => Except.ok (r :: rs)

/-!  ## dmutils/session.py -/

/-- One bound backing service of the service-discovery (VCAP_SERVICES)
document: its name and the `credentials.url` it exposes. -/
structure Service where
  name : String
  credentials_url : String

/-- Modelled from the spec: `dmutils.cloudfoundry.get_service_by_name_from_vcap_services`
is not among the provided sources.  Per the spec it looks a named service up
in the service-discovery document and, when the name is absent, fails with
the lookup's own "not found" condition (modelled as an error message naming
the missing service). -/
def get_service_by_name_from_vcap_services (vcap_services : List Service)
    (name : String) : Except String Service :=
  match vcap_services.find? (fun s => s.name = name) with
  | some s => Except.ok s
  | none => Except.error ("Service name " ++ name ++ " not found")

/-- The slice of Flask application state that `init_app` touches:
the configured redis service name, the constructed session cache client
(recorded by its connection URL once `redis.from_url` has run), and whether
the flask_session middleware has been installed. -/
structure AppState where
  dm_redis_service_name : String
  session_redis : Option String
  session_installed : Bool

/-- Observable start-up effects of `init_app`, in order: constructing the
cache client from a URL, and installing the session middleware. -/
inductive StartupEffect where
  | redisFromUrl (url : String)
  | installSession

/-- `init_app(app)` from dmutils/session.py:

    vcap_services = cf.get_vcap_services(app)
    redis_service_name = app.config["DM_REDIS_SERVICE_NAME"]
    redis_service = cf.get_service_by_name_from_vcap_services(vcap_services, redis_service_name)
    app.config["SESSION_REDIS"] = redis.from_url(redis_service["credentials"]["url"])
    flask_session.Session(app)

The discovery document is passed in explicitly (it is what
`cf.get_vcap_services(app)` reads at startup).  A failing lookup
propagates before the cache client is built or the middleware installed:
the error is returned with an empty effect list and the state unchanged. -/
def init_app (vcap_services : List Service) (app : AppState) :
    Except String AppState × List StartupEffect :=
  match get_service_by_name_from_vcap_services vcap_services app.dm_redis_service_name with
  | Except.error e => (Except.error e, [])
  | Except.ok redis_service =>
    (Except.ok { app with
        session_redis := some redis_service.credentials_url,
        session_installed := true },
     [StartupEffect.redisFromUrl redis_service.credentials_url,
      StartupEffect.installSession])

/-!  ## dmutils/errors.py (modelled from the spec)

The errors module itself is not among the provided sources; only its test
suite tests/test_errors.py is.  The definitions below are modelled from the
specification's description of the error-page resolver, pinned down where
the spec leaves latitude by the behaviour the test suite asserts. -/

/-- A failure of the host framework's template renderer: the
distinguishable template-not-found condition, or any other rendering
error. -/
inductive RenderErr where
  | templateNotFound
  | other
deriving DecidableEq

/-- An abstract template renderer: given a template path and the
`error_message` context value it either yields the rendered body or
fails. -/
abbrev Renderer := String → Option String → Except RenderErr String

/-- Modelled from the spec: the fixed template table of the error-page
resolver, `400/404/410/500` with `503 → 500`; `template_for` is the
dictionary lookup `templates.get(status_code)`, `none` for a code outside
the table. -/
def template_for (code : Nat) : Option String :=
  if code = 400 then some "errors/400.html"
  else if code = 404 then some "errors/404.html"
  else if code = 410 then some "errors/410.html"
  else if code = 500 then some "errors/500.html"
  else if code = 503 then some "errors/500.html"
  else none

/-- An exception as the resolver sees it: it may carry a numeric `code`
attribute and/or a numeric `status_code` attribute (`none` covering both an
absent attribute and one set to None). -/
structure Exc where
  code : Option Nat
  status_code : Option Nat

/-- Modelled from the spec: the status code the resolver starts from.  An
explicit `status_code` argument wins; otherwise an exception's numeric
`code` attribute, then its numeric `status_code` attribute, is used;
otherwise 500. -/
def resolve_status (e : Option Exc) (status_code : Option Nat) : Nat :=
  match status_code with
  | some sc => sc
  | none =>
    match e with
    | none => 500
    | some ex =>
      match ex.code with
      | some c => c
      | none =>
        match ex.status_code with
        | some s => s
        | none => 500

/-- Modelled from the spec: `render_error_page(e, status_code, error_message)`.
A status code outside the fixed table is normalised to 500 (the tests pin
this: an unknown code both renders the 500 template and is returned as
status 500, and its fallback path is toolkit/errors/500.html).  The chosen
template is rendered with `error_message` as context; if and only if that
raises the template-not-found condition, the toolkit fallback path for the
same (normalised) status is rendered once with the same context; any other
failure, and any failure of the fallback, propagates.  Alongside the result
the list of render calls made (template path and context), in order, is
returned. -/
def render_error_page (render : Renderer) (e : Option Exc)
    (status_code : Option Nat) (error_message : Option String) :
    Except RenderErr (String × Nat) × List (String × Option String) :=
  let sc0 := resolve_status e status_code
  let sc := if (template_for sc0).isSome then sc0 else 500
  let tmpl := (template_for sc).getD "errors/500.html"
  match render tmpl error_message with
  | Except.ok body => (Except.ok (body, sc), [(tmpl, error_message)])
  | Except.error RenderErr.templateNotFound =>
    let fallback := "toolkit/errors/" ++ toString sc ++ ".html"
    (match render fallback error_message with
     | Except.ok body =>
       (Except.ok (body, sc), [(tmpl, error_message), (fallback, error_message)])
     | Except.error err =>
       (Except.error err, [(tmpl, error_message), (fallback, error_message)]))
  | Except.error err => (Except.error err, [(tmpl, error_message)])

/-- The percent-encoding of one character for a URL query component:
unreserved characters stand for themselves, every other (ASCII) character
becomes %HH. -/
def percent_encode_char (c : Char) : String :=
  if c.isAlphanum || c = '-' || c = '.' || c = '_' || c = '~' then
    String.singleton c
  else
    let n := c.toNat
    let hex := fun m => if m < 10 then Char.ofNat (48 + m) else Char.ofNat (55 + m)
    "%" ++ String.singleton (hex (n / 16)) ++ String.singleton (hex (n % 16))

/-- Percent-encode a string for use as a URL query parameter value. -/
def url_quote (s : String) : String :=
  String.join (s.toList.map percent_encode_char)

/-- The request/session context the CSRF handler sees: the original
request path and the user id of the session, when a user session exists. -/
structure RequestCtx where
  path : String
  session_user_id : Option Nat

/-- The structured log events the CSRF handler can emit. -/
inductive LogEvent where
  | abortingRequest (user_id : Nat)
  | sessionExpired

/-- The exception handed to the CSRF handler: the CSRF failure itself, or
some other client error carrying a numeric status code. -/
inductive ClientError where
  | csrfError
  | httpError (code : Nat)

/-- What an error handler returns to the framework: a redirect response
(status and Location), or an error page (the resolver's outcome). -/
inductive HandlerResult where
  | redirect (status : Nat) (location : String)
  | page (outcome : Except RenderErr (String × Nat))

/-- Modelled from the spec: the redirect target
`/user/login?next=<original-path>`, the path percent-encoded as a query
parameter value. -/
def login_redirect_location (path : String) : String :=
  "/user/login?next=" ++ url_quote path

/-- Modelled from the spec: `redirect_to_login` builds a 302 redirect to
the login path with `next` set to the original request path. -/
def redirect_to_login (ctx : RequestCtx) : HandlerResult :=
  HandlerResult.redirect 302 (login_redirect_location ctx.path)

/-- Modelled from the spec: `csrf_handler(e)`.  A CSRF failure is
special-cased: with a user session, exactly one informational
"aborting request" event carrying the user id is logged; without one,
exactly one "session expired" event; in both cases the handler returns the
same 302 redirect to the login path with `next` set to the original path.
Any other (400-class) exception is resolved through the generic error-page
resolver instead, with no log event from this handler. -/
def csrf_handler (render : Renderer) (ctx : RequestCtx) (e : ClientError) :
    HandlerResult × List LogEvent :=
  match e with
  | ClientError.csrfError =>
    let logs :=
      match ctx.session_user_id with
      | some uid => [LogEvent.abortingRequest uid]
      | none => [LogEvent.sessionExpired]
    (redirect_to_login ctx, logs)
  | ClientError.httpError code =>
    (HandlerResult.page (render_error_page render (some ⟨some code, none⟩) none none).1, [])

/-!  ## Dictionary lemmas -/

theorem containsKey_eq_isSome_lookup (d : Dict) (k : String) :
    containsKey d k = (lookup d k).isSome := by
  induction d with
  | nil => rfl
  | cons p rest ih =>
    obtain ⟨a, v⟩ := p
    by_cases hk : a = k <;> simp [containsKey, lookup, hk, ih]

theorem lookup_eq_none_of_not_containsKey (d : Dict) (k : String)
    (h : containsKey d k = false) : lookup d k = none := by
  rw [containsKey_eq_isSome_lookup] at h
  exact Option.not_isSome_iff_eq_none.mp (by simp [h])

theorem lookup_filter_key_self (d : Dict) (k : String) :
    lookup (d.filter (fun p => p.1 != k)) k = none := by
  induction d with
  | nil => rfl
  | cons p rest ih =>
    obtain ⟨a, v⟩ := p
    by_cases hk : a = k
    · simp [List.filter_cons, hk, ih]
    · simp [List.filter_cons, hk, lookup, ih]

theorem lookup_filter_key_other (d : Dict) (k k' : String) (hkk : k' ≠ k) :
    lookup (d.filter (fun p => p.1 != k)) k' = lookup d k' := by
  induction d with
  | nil => rfl
  | cons p rest ih =>
    obtain ⟨a, v⟩ := p
    by_cases hk : a = k
    · subst hk
      simp [List.filter_cons, lookup, Ne.symm hkk, ih]
    · simp [List.filter_cons, hk, lookup, ih]

/-!  ## Claim theorems: forms/helpers.py -/

/-- C5: for every mapping, remove_csrf_token returns a new mapping object
(never the input object itself) equal to the input with the key
'csrf_token' removed when present and equal to the input otherwise, leaves
every other key-value pair unchanged, never mutates the input (the
embedding is pure, so the input value is untouched by construction), and
never fails (it is a total function with no error channel). -/
theorem remove_csrf_token_spec (fresh : Nat) (data : PyDict)
    (hfresh : fresh ≠ data.oid) :
    (remove_csrf_token fresh data).oid ≠ data.oid ∧
    lookup (remove_csrf_token fresh data).entries "csrf_token" = none ∧
    (∀ k, k ≠ "csrf_token" →
        lookup (remove_csrf_token fresh data).entries k = lookup data.entries k) ∧
    (containsKey data.entries "csrf_token" = false →
        (remove_csrf_token fresh data).entries = data.entries) := by
  refine ⟨hfresh, ?_, ?_, ?_⟩
  · cases hc : containsKey data.entries "csrf_token"
    · simp [remove_csrf_token, hc, lookup_eq_none_of_not_containsKey data.entries _ hc]
    · simp [remove_csrf_token, hc, lookup_filter_key_self]
  · intro k hk
    cases hc : containsKey data.entries "csrf_token"
    · simp [remove_csrf_token, hc]
    · simp [remove_csrf_token, hc, lookup_filter_key_other data.entries _ k hk]
  · intro hc
    simp [remove_csrf_token, hc]

/-- C5 witness: remove_csrf_token at a concrete dict containing the token. -/
theorem remove_csrf_token_spec_witness :
    (1 : Nat) ≠ (PyDict.mk 0 [("csrf_token", Val.str "x"), ("a", Val.str "1")]).oid ∧
    lookup (remove_csrf_token 1
        (PyDict.mk 0 [("csrf_token", Val.str "x"), ("a", Val.str "1")])).entries
        "csrf_token" = none ∧
    lookup (remove_csrf_token 1
        (PyDict.mk 0 [("csrf_token", Val.str "x"), ("a", Val.str "1")])).entries
        "a" = some (Val.str "1") := by
  refine ⟨by decide, ?_, ?_⟩
  · exact (remove_csrf_token_spec 1
      (PyDict.mk 0 [("csrf_token", Val.str "x"), ("a", Val.str "1")]) (by decide)).2.1
  · rw [(remove_csrf_token_spec 1
      (PyDict.mk 0 [("csrf_token", Val.str "x"), ("a", Val.str "1")]) (by decide)).2.2.1
      "a" (by decide)]
    rfl

/-- C9: for every truthy (non-empty) option dict lacking the key 'label',
govuk_option raises KeyError('label') — even when 'value' is present —
because the default argument of `option.get('value', option['label'])` is
evaluated eagerly. -/
theorem govuk_option_missing_label (d : Dict) (hne : d ≠ [])
    (hlabel : containsKey d "label" = false) :
    govuk_option (some d) = Except.error "label" := by
  have hempty : d.isEmpty = false := by
    cases d with
    | nil => exact absurd rfl hne
    | cons p rest => rfl
  have hl : lookup d "label" = none :=
    lookup_eq_none_of_not_containsKey d "label" hlabel
  simp [govuk_option, hempty, getItem, hl]

/-- C9 witness: a dict with a 'value' key but no 'label' key. -/
theorem govuk_option_missing_label_witness :
    ([("value", Val.str "v")] : Dict) ≠ [] ∧
    containsKey [("value", Val.str "v")] "label" = false ∧
    govuk_option (some [("value", Val.str "v")]) = Except.error "label" :=
  ⟨by simp, rfl,
   govuk_option_missing_label [("value", Val.str "v")] (by simp) rfl⟩

/-- Characterisation of govuk_option on a truthy dict whose 'label' key is
bound: the result is the two- or three-entry dict the source builds. -/
theorem govuk_option_eq_of_label (d : Dict) (lv : Val)
    (hlabel : lookup d "label" = some lv) :
    govuk_option (some d) =
      Except.ok
        (match lookup d "description" with
         | some dv =>
           [("value", (lookup d "value").getD lv), ("text", lv),
            ("hint", Val.obj [("text", dv)])]
         | none => [("value", (lookup d "value").getD lv), ("text", lv)]) := by
  have hempty : d.isEmpty = false := by
    cases d with
    | nil => simp [lookup] at hlabel
    | cons p rest => rfl
  cases hdesc : lookup d "description" with
  | none =>
    simp [govuk_option, hempty, getItem, hlabel,
      containsKey_eq_isSome_lookup, hdesc]
  | some dv =>
    simp [govuk_option, hempty, getItem, hlabel,
      containsKey_eq_isSome_lookup, hdesc, dictSet, containsKey]

/-- C4: govuk_option maps falsy input (None or the empty dict) to the empty
dict; on a non-empty dict with a 'label' key it maps 'text' to the label,
'value' to the dict's 'value' entry when present and to the label
otherwise, and binds 'hint' to a dict with 'text' bound to the description
exactly when 'description' is present. -/
theorem govuk_option_adapts (d : Dict) (lv : Val) (_hne : d ≠ [])
    (hlabel : lookup d "label" = some lv) :
    govuk_option none = Except.ok [] ∧
    govuk_option (some []) = Except.ok [] ∧
    ∃ r, govuk_option (some d) = Except.ok r ∧
      lookup r "text" = some lv ∧
      lookup r "value" = some ((lookup d "value").getD lv) ∧
      lookup r "hint" =
        (lookup d "description").map (fun dv => Val.obj [("text", dv)]) := by
  refine ⟨rfl, rfl, ?_⟩
  have h := govuk_option_eq_of_label d lv hlabel
  cases hdesc : lookup d "description" with
  | none =>
    rw [hdesc] at h
    exact ⟨_, h, by simp [lookup], by simp [lookup], by simp [lookup]⟩
  | some dv =>
    rw [hdesc] at h
    exact ⟨_, h, by simp [lookup], by simp [lookup], by simp [lookup]⟩

/-- C4 witness: the spec's own example record. -/
theorem govuk_option_adapts_witness :
    ([("label", Val.str "A"), ("value", Val.str "v"), ("description", Val.str "d")] :
        Dict) ≠ [] ∧
    lookup [("label", Val.str "A"), ("value", Val.str "v"),
        ("description", Val.str "d")] "label" = some (Val.str "A") ∧
    ∃ r, govuk_option (some [("label", Val.str "A"), ("value", Val.str "v"),
        ("description", Val.str "d")]) = Except.ok r ∧
      lookup r "text" = some (Val.str "A") ∧
      lookup r "value" = some ((lookup [("label", Val.str "A"),
        ("value", Val.str "v"), ("description", Val.str "d")] "value").getD
          (Val.str "A")) ∧
      lookup r "hint" = (lookup [("label", Val.str "A"), ("value", Val.str "v"),
        ("description", Val.str "d")] "description").map
          (fun dv => Val.obj [("text", dv)]) :=
  ⟨by simp, rfl,
   (govuk_option_adapts [("label", Val.str "A"), ("value", Val.str "v"),
      ("description", Val.str "d")] (Val.str "A") (by simp) rfl).2.2⟩

/-- C10: on a truthy dict with a 'label' key the result of govuk_option has
no keys beyond 'value', 'text' and 'hint'; every other input key is
dropped, and in particular a pre-existing 'hint' entry is not copied: 'hint'
appears in the output exactly when 'description' is present in the input,
carrying the description rather than the old 'hint' value. -/
theorem govuk_option_discards_other_keys (d : Dict) (lv : Val) (_hne : d ≠ [])
    (hlabel : lookup d "label" = some lv) :
    ∃ r, govuk_option (some d) = Except.ok r ∧
      (∀ p ∈ r, p.1 = "value" ∨ p.1 = "text" ∨ p.1 = "hint") ∧
      containsKey r "hint" = containsKey d "description" ∧
      lookup r "hint" =
        (lookup d "description").map (fun dv => Val.obj [("text", dv)]) := by
  have h := govuk_option_eq_of_label d lv hlabel
  cases hdesc : lookup d "description" with
  | none =>
    rw [hdesc] at h
    refine ⟨_, h, ?_,
      by simp [containsKey, containsKey_eq_isSome_lookup, hdesc],
      by simp [lookup, hdesc]⟩
    intro p hp
    simp at hp
    rcases hp with h1 | h1 <;> simp [h1]
  | some dv =>
    rw [hdesc] at h
    refine ⟨_, h, ?_,
      by simp [containsKey, containsKey_eq_isSome_lookup, hdesc],
      by simp [lookup, hdesc]⟩
    intro p hp
    simp at hp
    rcases hp with h1 | h1 | h1 <;> simp [h1]

/-- C10 witness: an input with an extra key and a pre-existing 'hint' key
and no 'description'; the theorem yields an output whose 'hint' is gone. -/
theorem govuk_option_discards_other_keys_witness :
    ([("label", Val.str "A"), ("hint", Val.str "old"), ("extra", Val.str "e")] :
        Dict) ≠ [] ∧
    lookup [("label", Val.str "A"), ("hint", Val.str "old"),
        ("extra", Val.str "e")] "label" = some (Val.str "A") ∧
    ∃ r, govuk_option (some [("label", Val.str "A"), ("hint", Val.str "old"),
        ("extra", Val.str "e")]) = Except.ok r ∧
      (∀ p ∈ r, p.1 = "value" ∨ p.1 = "text" ∨ p.1 = "hint") ∧
      containsKey r "hint" = containsKey [("label", Val.str "A"),
        ("hint", Val.str "old"), ("extra", Val.str "e")] "description" ∧
      lookup r "hint" = (lookup [("label", Val.str "A"), ("hint", Val.str "old"),
        ("extra", Val.str "e")] "description").map
          (fun dv => Val.obj [("text", dv)]) :=
  ⟨by simp, rfl,
   govuk_option_discards_other_keys [("label", Val.str "A"),
     ("hint", Val.str "old"), ("extra", Val.str "e")] (Val.str "A")
     (by simp) rfl⟩

/-- C7: govuk_options applies govuk_option element-wise in order: whenever
every element converts successfully the output is the list of the
element-wise conversions — same length, i-th output = govuk_option of the
i-th input. -/
theorem govuk_options_maps (options : List (Option Dict))
    (h : ∀ o ∈ options, ∃ r, govuk_option o = Except.ok r) :
    ∃ rs, govuk_options options = Except.ok rs ∧
      rs.length = options.length ∧
      ∀ (i : Nat) (hi : i < options.length) (hri : i < rs.length),
        govuk_option (options.get ⟨i, hi⟩) = Except.ok (rs.get ⟨i, hri⟩) := by
  induction options with
  | nil =>
    exact ⟨[], rfl, rfl, fun i hi => absurd hi (by simp)⟩
  | cons o os ih =>
    obtain ⟨r, hr⟩ := h o (List.mem_cons_self o os)
    obtain ⟨rs, hrs, hlen, hidx⟩ :=
      ih (fun o' ho' => h o' (List.mem_cons_of_mem o ho'))
    refine ⟨r :: rs, ?_, by simp [hlen], ?_⟩
    · simp [govuk_options, hr, hrs]
    · intro i hi hri
      cases i with
      | zero => simpa using hr
      | succ n =>
        simpa using hidx n (Nat.lt_of_succ_lt_succ hi) (Nat.lt_of_succ_lt_succ hri)

/-- C7 witness: a two-element list of options, both converting. -/
theorem govuk_options_maps_witness :
    (∀ o ∈ ([some [("label", Val.str "A")], none] : List (Option Dict)),
        ∃ r, govuk_option o = Except.ok r) ∧
    ∃ rs, govuk_options [some [("label", Val.str "A")], none] = Except.ok rs ∧
      rs.length = ([some [("label", Val.str "A")], none] :
          List (Option Dict)).length ∧
      ∀ (i : Nat) (hi : i < ([some [("label", Val.str "A")], none] :
            List (Option Dict)).length) (hri : i < rs.length),
        govuk_option (([some [("label", Val.str "A")], none] :
            List (Option Dict)).get ⟨i, hi⟩) = Except.ok (rs.get ⟨i, hri⟩) := by
  have h0 : ∀ o ∈ ([some [("label", Val.str "A")], none] : List (Option Dict)),
      ∃ r, govuk_option o = Except.ok r := by
    intro o ho
    simp at ho
    rcases ho with h1 | h1 <;> subst h1
    · exact ⟨[("value", Val.str "A"), ("text", Val.str "A")], rfl⟩
    · exact ⟨[], rfl⟩
  exact ⟨h0, govuk_options_maps [some [("label", Val.str "A")], none] h0⟩

/-!  ## Claim theorems: dmutils/errors.py (modelled from the spec) -/

/-- The template the spec's fixed table assigns to an explicit status code:
the code's own template for 400/404/410/500, the 500 template for 503 and
for every unrecognised code.  Written from the claim's words, to be
compared with the resolver's behaviour. -/
def claimed_template_for (code : Nat) : String :=
  if code = 400 then "errors/400.html"
  else if code = 404 then "errors/404.html"
  else if code = 410 then "errors/410.html"
  else "errors/500.html"

/-- The status the resolver actually returns for an explicit status code:
the code itself when it is in the fixed table (including 503), 500 for
every other code. -/
def claimed_status_for (code : Nat) : Nat :=
  if code = 400 ∨ code = 404 ∨ code = 410 ∨ code = 500 ∨ code = 503 then code
  else 500

theorem normalised_status_eq (code : Nat) :
    (if (template_for code).isSome then code else 500) = claimed_status_for code := by
  unfold template_for claimed_status_for
  split_ifs <;> simp_all

theorem template_of_claimed_status (code : Nat) :
    (template_for (claimed_status_for code)).getD "errors/500.html" =
      claimed_template_for code := by
  unfold template_for claimed_status_for claimed_template_for
  split_ifs <;> simp_all

/-- A renderer that succeeds on every template. -/
def ok_renderer : Renderer := fun _ _ => Except.ok "rendered"

/-- A renderer whose primary templates are all missing and whose toolkit
fallback for the 500 family renders. -/
def fallback_renderer : Renderer := fun path _ =>
  if path = "toolkit/errors/500.html" then Except.ok "fallback body"
  else Except.error RenderErr.templateNotFound

/-- C2 counterexample: for the unrecognised explicit status code 999 the
resolver returns status 500, not the 999 that was passed in, refuting the
claim that the second component always equals the given code. -/
theorem render_error_page_status_cex :
    (render_error_page ok_renderer none (some 999) none).1 =
      Except.ok ("rendered", 500) ∧ (999 : Nat) ≠ 500 :=
  ⟨rfl, by decide⟩

/-- C2 (amended): for every explicit status code the first template
rendered is the one of the fixed table (its own template for 400/404/410/500,
the 500 template for 503 and for unrecognised codes), and when that render
succeeds the returned pair is the body with the given status code for codes
in the table (503 included) and with status 500 for every other code. -/
theorem render_error_page_status_code (render : Renderer) (code : Nat)
    (msg : Option String) :
    (render_error_page render none (some code) msg).2.head? =
      some (claimed_template_for code, msg) ∧
    ∀ body, render (claimed_template_for code) msg = Except.ok body →
      (render_error_page render none (some code) msg).1 =
        Except.ok (body, claimed_status_for code) := by
  simp only [render_error_page, resolve_status, normalised_status_eq,
    template_of_claimed_status]
  constructor
  · split
    · simp
    · split <;> simp
    · simp
  · intro body hb
    simp [hb]

/-- C2 witness: code 503 renders the 500 template yet returns status 503. -/
theorem render_error_page_status_code_witness :
    ok_renderer (claimed_template_for 503) none = Except.ok "rendered" ∧
    (render_error_page ok_renderer none (some 503) none).1 =
      Except.ok ("rendered", claimed_status_for 503) :=
  ⟨rfl, (render_error_page_status_code ok_renderer 503 none).2 "rendered" rfl⟩

/-- C1: for every status code and message the resolver renders the primary
template once; exactly when that fails with template-not-found it renders
the toolkit fallback for the same (resolved) status family exactly once with
the same unchanged error_message; a successful fallback's body is returned,
any other primary failure propagates without a fallback attempt, and a
failure of the fallback itself (not-found included) propagates. -/
theorem render_error_page_fallback (render : Renderer) (code : Nat)
    (msg : Option String) (sc : Nat) (tmpl fb : String)
    (hsc : sc = if (template_for code).isSome then code else 500)
    (htmpl : tmpl = (template_for sc).getD "errors/500.html")
    (hfb : fb = "toolkit/errors/" ++ toString sc ++ ".html") :
    (∀ body, render tmpl msg = Except.ok body →
        render_error_page render none (some code) msg =
          (Except.ok (body, sc), [(tmpl, msg)])) ∧
    (render tmpl msg = Except.error RenderErr.templateNotFound →
        (render_error_page render none (some code) msg).2 =
          [(tmpl, msg), (fb, msg)] ∧
        (∀ body, render fb msg = Except.ok body →
            (render_error_page render none (some code) msg).1 =
              Except.ok (body, sc)) ∧
        (∀ err, render fb msg = Except.error err →
            (render_error_page render none (some code) msg).1 =
              Except.error err)) ∧
    (render tmpl msg = Except.error RenderErr.other →
        render_error_page render none (some code) msg =
          (Except.error RenderErr.other, [(tmpl, msg)])) := by
  subst hsc htmpl hfb
  refine ⟨?_, ?_, ?_⟩
  · intro body hb
    simp [render_error_page, resolve_status, hb]
  · intro hnf
    refine ⟨?_, ?_, ?_⟩
    · cases hf : render ("toolkit/errors/" ++
          toString (if (template_for code).isSome then code else 500) ++
          ".html") msg <;>
        simp [render_error_page, resolve_status, hnf, hf]
    · intro body hb
      simp [render_error_page, resolve_status, hnf, hb]
    · intro err he
      simp [render_error_page, resolve_status, hnf, he]
  · intro ho
    simp [render_error_page, resolve_status, ho]

/-- C1 witness: mirroring the test, code 418 resolves to the 500 family,
its primary template is missing and the toolkit fallback renders. -/
theorem render_error_page_fallback_witness :
    ((500 : Nat) = if (template_for 418).isSome then 418 else 500) ∧
    fallback_renderer "errors/500.html" none =
      Except.error RenderErr.templateNotFound ∧
    (render_error_page fallback_renderer none (some 418) none).2 =
      [("errors/500.html", none), ("toolkit/errors/500.html", none)] ∧
    (render_error_page fallback_renderer none (some 418) none).1 =
      Except.ok ("fallback body", 500) := by
  have h := render_error_page_fallback fallback_renderer 418 none 500
    "errors/500.html" "toolkit/errors/500.html" rfl rfl rfl
  have h2 := h.2.1 rfl
  exact ⟨rfl, rfl, h2.1, h2.2.1 "fallback body" rfl⟩

/-- The resolver's output depends on the exception and explicit status-code
arguments only through the status they resolve to. -/
theorem render_error_page_resolve_congr (render : Renderer)
    (e1 e2 : Option Exc) (sc1 sc2 : Option Nat) (msg : Option String)
    (h : resolve_status e1 sc1 = resolve_status e2 sc2) :
    render_error_page render e1 sc1 msg = render_error_page render e2 sc2 msg := by
  unfold render_error_page
  rw [h]

/-- C6: an exception with a numeric code attribute behaves exactly as
resolve-by-code at that code; with no code but a numeric status_code
attribute, exactly as resolve-by-code at that status; with neither
attribute (absent or None), exactly as resolve-by-code at 500. -/
theorem render_error_page_exception (render : Renderer) (ex : Exc)
    (msg : Option String) :
    (∀ c, ex.code = some c →
        render_error_page render (some ex) none msg =
          render_error_page render none (some c) msg) ∧
    (∀ s, ex.code = none → ex.status_code = some s →
        render_error_page render (some ex) none msg =
          render_error_page render none (some s) msg) ∧
    (ex.code = none → ex.status_code = none →
        render_error_page render (some ex) none msg =
          render_error_page render none (some 500) msg) := by
  refine ⟨?_, ?_, ?_⟩ <;> intros <;>
    apply render_error_page_resolve_congr <;> simp [resolve_status, *]

/-- C6 witness: an exception carrying only a status_code attribute of 500,
as in the test's CustomHTTPError. -/
theorem render_error_page_exception_witness :
    (Exc.mk none (some 500)).code = none ∧
    (Exc.mk none (some 500)).status_code = some 500 ∧
    render_error_page ok_renderer (some (Exc.mk none (some 500))) none none =
      render_error_page ok_renderer none (some 500) none :=
  ⟨rfl, rfl,
   (render_error_page_exception ok_renderer (Exc.mk none (some 500)) none).2.1
     500 rfl rfl⟩

/-- C3: a CSRF failure always yields a 302 redirect to
/user/login?next=(the percent-encoded original path); with a user session
exactly one informational aborting-request event carrying the user id is
logged, without one exactly one session-expired event, the redirect being
the same expression in both cases; a non-CSRF 400 given to the same handler
is resolved through the generic resolver, rendering errors/400.html with
status 400. -/
theorem csrf_handler_spec (render : Renderer) (ctx : RequestCtx) :
    (∀ uid, ctx.session_user_id = some uid →
        csrf_handler render ctx ClientError.csrfError =
          (HandlerResult.redirect 302 ("/user/login?next=" ++ url_quote ctx.path),
           [LogEvent.abortingRequest uid])) ∧
    (ctx.session_user_id = none →
        csrf_handler render ctx ClientError.csrfError =
          (HandlerResult.redirect 302 ("/user/login?next=" ++ url_quote ctx.path),
           [LogEvent.sessionExpired])) ∧
    (∀ body, render "errors/400.html" none = Except.ok body →
        csrf_handler render ctx (ClientError.httpError 400) =
          (HandlerResult.page (Except.ok (body, 400)), [])) := by
  refine ⟨?_, ?_, ?_⟩
  · intro uid huid
    simp [csrf_handler, redirect_to_login, login_redirect_location, huid]
  · intro hnone
    simp [csrf_handler, redirect_to_login, login_redirect_location, hnone]
  · intro body hb
    simp [csrf_handler, render_error_page, resolve_status, template_for, hb]

/-- C3 witness: the test's scenario — path "/" (encoding to %2F), a logged
in user with id 1234, and a renderer that serves errors/400.html. -/
theorem csrf_handler_spec_witness :
    (RequestCtx.mk "/" (some 1234)).session_user_id = some 1234 ∧
    csrf_handler ok_renderer (RequestCtx.mk "/" (some 1234))
        ClientError.csrfError =
      (HandlerResult.redirect 302
         ("/user/login?next=" ++ url_quote (RequestCtx.mk "/" (some 1234)).path),
       [LogEvent.abortingRequest 1234]) ∧
    url_quote "/" = "%2F" ∧
    csrf_handler ok_renderer (RequestCtx.mk "/" (some 1234))
        (ClientError.httpError 400) =
      (HandlerResult.page (Except.ok ("rendered", 400)), []) :=
  ⟨rfl,
   (csrf_handler_spec ok_renderer (RequestCtx.mk "/" (some 1234))).1 1234 rfl,
   rfl,
   (csrf_handler_spec ok_renderer (RequestCtx.mk "/" (some 1234))).2.2
     "rendered" rfl⟩

/-- C8: when the configured redis service name is absent from the discovery
document, init_app propagates the discovery lookup's own not-found error,
performs no start-up effect (no cache client is constructed and the session
middleware is not installed), and yields no application state: the
application does not start. -/
theorem init_app_missing_service (vcap_services : List Service)
    (app : AppState)
    (h : ∀ s ∈ vcap_services, s.name ≠ app.dm_redis_service_name) :
    get_service_by_name_from_vcap_services vcap_services
        app.dm_redis_service_name =
      Except.error ("Service name " ++ app.dm_redis_service_name ++
        " not found") ∧
    init_app vcap_services app =
      (Except.error ("Service name " ++ app.dm_redis_service_name ++
        " not found"), []) := by
  have hfind : vcap_services.find?
      (fun s => s.name = app.dm_redis_service_name) = none := by
    rw [List.find?_eq_none]
    intro s hs
    simp [h s hs]
  have hlook : get_service_by_name_from_vcap_services vcap_services
      app.dm_redis_service_name =
    Except.error ("Service name " ++ app.dm_redis_service_name ++
      " not found") := by
    simp [get_service_by_name_from_vcap_services, hfind]
  exact ⟨hlook, by simp [init_app, hlook]⟩

/-- C8 witness: a discovery document that binds only a postgres service
while the application is configured to look for "redis". -/
theorem init_app_missing_service_witness :
    (∀ s ∈ [Service.mk "postgres" "postgres-url"],
        s.name ≠ (AppState.mk "redis" none false).dm_redis_service_name) ∧
    init_app [Service.mk "postgres" "postgres-url"]
        (AppState.mk "redis" none false) =
      (Except.error ("Service name " ++
        (AppState.mk "redis" none false).dm_redis_service_name ++
        " not found"), []) := by
  have h0 : ∀ s ∈ [Service.mk "postgres" "postgres-url"],
      s.name ≠ (AppState.mk "redis" none false).dm_redis_service_name := by
    intro s hs
    simp at hs
    subst hs
    decide
  exact ⟨h0, (init_app_missing_service [Service.mk "postgres" "postgres-url"]
    (AppState.mk "redis" none false) h0).2⟩

end DMUtils
